import Mathlib

/-!
Shallow embedding of the gdcr-api zone-resolution service.

Sources embedded here:
* `app.py` — windowed loader `load_zones_near_point`, resolver `find_gdcr`,
  Firestore endpoint `gdcr_by_doc`;
* `app_original.py` — full-load resolver `get_gdcr` and the regulation
  dictionary `gdcr_dict` built at startup.

Modelling conventions:
* Python floats are modelled as rationals (`ℚ`); the arithmetic performed by
  the code (± 0.05, comparisons) is exact in this range.
* JSON values are the inductive `JVal`; Python dicts are association lists
  with unique keys, read through `dictGet`.
* The geometry engine (shapely / geopandas) is an external library, modelled
  by the interface `GeomEngine`: a containment test for a point and the
  feature's bounding box, exactly the two operations the code uses
  (`gdf.contains(point)` and fiona's bbox filter, which keeps features whose
  envelope intersects the window).  `GeomEngine.WF` states the engine
  invariant that a geometry lies inside its own bounds.
* Python's `str.strip` / `str.lower` are modelled by `pyStrip` / `pyLower`
  over the character list (structural recursion, so terms evaluate).
-/

namespace GDCRApi

/-! ### Python string primitives -/

/-- Whitespace recognised by Python's `str.strip()`. -/
def pyIsSpace (c : Char) : Bool :=
  c = ' ' || c = '\t' || c = '\n' || c = '\r' || c = '\x0b' || c = '\x0c'

/-- ASCII lower-casing of one character, as Python's `str.lower()` does on
the ASCII zone names appearing in the data. -/
def pyLowerChar (c : Char) : Char :=
  if 'A' ≤ c ∧ c ≤ 'Z' then Char.ofNat (c.toNat + 32) else c

/-- Python `s.strip()`: drop leading and trailing whitespace. -/
def pyStrip (s : String) : String :=
  ⟨((s.data.dropWhile pyIsSpace).reverse.dropWhile pyIsSpace).reverse⟩

/-- Python `s.lower()`. -/
def pyLower (s : String) : String :=
  ⟨s.data.map pyLowerChar⟩

/-! ### JSON values and dictionaries -/

/-- JSON values as they occur in the regulation file and in response
payloads.  `jnull` doubles as Python's `None`. -/
inductive JVal where
  | jstr : String → JVal
  | jnum : ℚ → JVal
  | jnull : JVal
  | jobj : List (String × JVal) → JVal

/-- Python `str(v)`.  Missing feature properties surface as `None` in the
row dict, hence `str` of `jnull` is `"None"`.  The other renderings are
only placeholders: the embedded code applies `str` solely to strings and
missing values. -/
def pyStr : JVal → String
  | .jstr s => s
  | .jnum q => toString q
  | .jnull => "None"
  | .jobj _ => "dict"

/-- Python truthiness of a JSON value. -/
def truthy : JVal → Bool
  | .jstr s => !s.isEmpty
  | .jnum q => decide (q ≠ 0)
  | .jnull => false
  | .jobj o => !o.isEmpty

/-- Python `a or b`. -/
def pyOr (a b : JVal) : JVal :=
  if truthy a then a else b

/-- Lookup of a key in a dict modelled as an association list. -/
def dictGet (d : List (String × JVal)) (k : String) : Option JVal :=
  (d.find? (fun kv => decide (kv.1 = k))).map (fun kv => kv.2)

/-- Python `d.get(k)`: `None` when the key is absent. -/
def dictGetV (d : List (String × JVal)) (k : String) : JVal :=
  (dictGet d k).getD .jnull

/-- One record of the regulation file `gdcr_masterjson.json` (a JSON
object). -/
abbrev RegRecord := List (String × JVal)

/-! ### Geometry engine interface -/

/-- An axis-aligned bounding box `(minx, miny, maxx, maxy)` in degree
coordinates, as used by fiona's `bbox` filter. -/
structure BBox where
  minx : ℚ
  miny : ℚ
  maxx : ℚ
  maxy : ℚ

/-- Membership of a planar point in a box (boundary inclusive, as for
envelopes). -/
def BBox.containsPt (b : BBox) (x y : ℚ) : Bool :=
  decide (b.minx ≤ x) && decide (x ≤ b.maxx) && decide (b.miny ≤ y) && decide (y ≤ b.maxy)

/-- Axis-aligned box overlap test, the filter fiona applies between a
feature's envelope and the requested window. -/
def BBox.intersects (a b : BBox) : Bool :=
  decide (a.minx ≤ b.maxx) && decide (b.minx ≤ a.maxx) &&
    decide (a.miny ≤ b.maxy) && decide (b.miny ≤ a.maxy)

/-- Box `a` contains box `b` entirely. -/
def BBox.containsBox (a b : BBox) : Bool :=
  decide (a.minx ≤ b.minx) && decide (b.maxx ≤ a.maxx) &&
    decide (a.miny ≤ b.miny) && decide (b.maxy ≤ a.maxy)

/-- The two operations the service asks of the geometry engine: the strict
(`shapely.contains`) point-containment test and the geometry's envelope. -/
class GeomEngine (G : Type) where
  containsPt : G → ℚ → ℚ → Bool
  bounds : G → BBox

/-- Engine invariant: every point of a geometry lies within the geometry's
own envelope.  True of every real shapely geometry. -/
def GeomEngine.WF {G : Type} [GeomEngine G] (g : G) : Prop :=
  ∀ x y, GeomEngine.containsPt g x y = true → (GeomEngine.bounds g).containsPt x y = true

/-- Concrete geometry used to instantiate the engine in examples: an open
axis-aligned rectangle.  `containsPt` is strict (boundary excluded), the
semantics of `shapely.contains`. -/
structure Rect where
  x0 : ℚ
  y0 : ℚ
  x1 : ℚ
  y1 : ℚ

instance rectEngine : GeomEngine Rect where
  containsPt r x y :=
    decide (r.x0 < x) && decide (x < r.x1) && decide (r.y0 < y) && decide (y < r.y1)
  bounds r := ⟨r.x0, r.y0, r.x1, r.y1⟩

/-! ### Dataset model -/

/-- One polygon feature: its geometry plus the GeoJSON property bag. -/
structure Feature (G : Type) where
  geom : G
  props : List (String × JVal)

/-- A loaded GeoDataFrame: the frame-level column list (derived by the
reader from the file's schema, identical for any row filter) and the rows. -/
structure ZoneDataset (G : Type) where
  columns : List String
  feats : List (Feature G)

/-- Window half-width in degrees (`buffer_deg = 0.05` in
`load_zones_near_point`). -/
def buffer_deg : ℚ := 5 / 100

/-- The bbox tuple `(lon - buffer, lat - buffer, lon + buffer, lat + buffer)`
computed by `load_zones_near_point`. -/
def queryBBox (lat lon : ℚ) : BBox :=
  ⟨lon - buffer_deg, lat - buffer_deg, lon + buffer_deg, lat + buffer_deg⟩

/-- `load_zones_near_point` from `app.py`: read the dataset keeping only
features whose envelope intersects the window.  The CRS normalisation step
is the identity here, the dataset being modelled in EPSG:4326 already. -/
def load_zones_near_point {G : Type} [GeomEngine G] (d : ZoneDataset G) (lat lon : ℚ) :
    ZoneDataset G :=
  ⟨d.columns, d.feats.filter (fun f => (GeomEngine.bounds f.geom).intersects (queryBBox lat lon))⟩

/-- A shapely point: planar `(x, y)`. -/
structure Pt where
  x : ℚ
  y : ℚ

/-- The query point `Point(lon, lat)` built by both resolvers: longitude is
the first (x) coordinate. -/
def queryPoint (lat lon : ℚ) : Pt :=
  ⟨lon, lat⟩

/-- Python `col.strip().lower() in ["zoning", "zone", "zone_name"]`. -/
def isZoneKeyName (c : String) : Bool :=
  (["zoning", "zone", "zone_name"] : List String).contains (pyLower (pyStrip c))

/-- The rows of the windowed frame containing the query point:
`zones_gdf[zones_gdf.contains(point)]` in `find_gdcr`. -/
def matchFeats {G : Type} [GeomEngine G] (d : ZoneDataset G) (lat lon : ℚ) :
    List (Feature G) :=
  (load_zones_near_point d lat lon).feats.filter
    (fun f => GeomEngine.containsPt f.geom (queryPoint lat lon).x (queryPoint lat lon).y)

/-- Zone-name extraction `str(row[col]).strip()` from a feature's row. -/
def extractZone {G : Type} (f : Feature G) (col : String) : String :=
  pyStrip (pyStr (dictGetV f.props col))

/-- The regulation-row test of `find_gdcr`:
`str(row.get("zoning", "")).strip().lower() == zone_name.lower()`. -/
def regMatches (row : RegRecord) (zone_name : String) : Bool :=
  decide (pyLower (pyStrip (pyStr ((dictGet row "zoning").getD (.jstr "")))) = pyLower zone_name)

/-- The linear scan of `GDCR_DATA` in `find_gdcr`, returning the first
matching regulation record. -/
def findReg (tbl : List RegRecord) (zone_name : String) : Option RegRecord :=
  tbl.find? (fun row => regMatches row zone_name)

/-- `find_gdcr` from `app.py`: windowed load, containment filter, column
scan, zone-name extraction and regulation join, returned as the literal
response dict. -/
def find_gdcr {G : Type} [GeomEngine G] (d : ZoneDataset G) (gdcrData : List RegRecord)
    (lat lon : ℚ) : List (String × JVal) :=
  match matchFeats d lat lon with
  | [] => [("error", .jstr "Point outside GDCR zones")]
  | f :: _ =>
    match List.find? isZoneKeyName (load_zones_near_point d lat lon).columns with
    | none => [("error", .jstr "Zoning column not found")]
    | some zone_col =>
      let zone_name := extractZone f zone_col
      match findReg gdcrData zone_name with
      | some row =>
        [("zone", .jstr zone_name),
         ("base_fsi", (dictGet row "base_fsi").getD .jnull),
         ("max_height_m", (dictGet row "max_height_m").getD .jnull),
         ("permissible_use", (dictGet row "permissible_use").getD .jnull)]
      | none => [("zone", .jstr zone_name), ("error", .jstr "GDCR data not found")]

/-! ### The original full-load variant (`app_original.py`) -/

/-- Python dict assignment `d[k] = v`: overwrite in place, else append. -/
def assocSet (d : List (String × RegRecord)) (k : String) (v : RegRecord) :
    List (String × RegRecord) :=
  if d.any (fun kv => decide (kv.1 = k)) then
    d.map (fun kv => if kv.1 = k then (k, v) else kv)
  else d ++ [(k, v)]

/-- The startup loop of `app_original.py` building `gdcr_dict`: for each
record take `item.get("zoning") or item.get("zone") or item.get("zone_name")`
(Python `or`, so falsy values fall through), and on a truthy key store the
record under `key.strip().lower()`.  A truthy non-string key would raise in
Python; such records are outside the embedded domain. -/
def build_gdcr_dict (l : List RegRecord) : List (String × RegRecord) :=
  l.foldl
    (fun dict item =>
      let key := pyOr (dictGetV item "zoning") (pyOr (dictGetV item "zone") (dictGetV item "zone_name"))
      if truthy key then
        match key with
        | .jstr s => assocSet dict (pyLower (pyStrip s)) item
        | _ => dict
      else dict)
    []

/-- Success payload of `get_gdcr` in `app_original.py`; `gdcr = none` stands
for the fallback string `"No GDCR rule found"`. -/
structure OrigResult where
  latitude : ℚ
  longitude : ℚ
  zone : String
  gdcr : Option RegRecord

/-- `get_gdcr` from `app_original.py`: iterate the whole frame, stop at the
first row containing `Point(lon, lat)`, read the `"Zoning"` column, and look
the lowered name up in `gdcr_dict`.  `none` models the
`HTTPException(404, "Point is outside all GDCR zones")` branch. -/
def get_gdcr {G : Type} [GeomEngine G] (gdf : List (Feature G))
    (gdcrDict : List (String × RegRecord)) (lat lon : ℚ) : Option OrigResult :=
  match List.find?
      (fun row => GeomEngine.containsPt row.geom (queryPoint lat lon).x (queryPoint lat lon).y)
      gdf with
  | none => none
  | some row =>
    let zone_name := extractZone row "Zoning"
    let zone_key := pyLower zone_name
    some ⟨lat, lon, zone_name,
      (gdcrDict.find? (fun kv => decide (kv.1 = zone_key))).map (fun kv => kv.2)⟩

/-- The JSON body the original endpoint sends over the wire: the success
dict of `get_gdcr`, or FastAPI's rendering of the 404 `HTTPException`. -/
def origResultDict : Option OrigResult → List (String × JVal)
  | none => [("detail", .jstr "Point is outside all GDCR zones")]
  | some res =>
    [("latitude", .jnum res.latitude),
     ("longitude", .jnum res.longitude),
     ("zone", .jstr res.zone),
     ("gdcr", match res.gdcr with
              | some rec => .jobj rec
              | none => .jstr "No GDCR rule found")]

/-! ### The Firestore endpoint (`gdcr_by_doc` in `app.py`) -/

/-- A Firestore GeoPoint. -/
structure GeoPt where
  latitude : ℚ
  longitude : ℚ

/-- The slice of a `properties` document the endpoint reads: the two
optional geo-fields. -/
structure FireDoc where
  lat_long_land : Option GeoPt
  lat_long_plot : Option GeoPt

/-- Observable effect of one `/gdcr-by-doc` request: the JSON response and
the field map passed to `doc_ref.update`, when any update is performed. -/
structure DocEffect where
  response : List (String × JVal)
  update : Option (List (String × JVal))

/-- `gdcr_by_doc` from `app.py`.  The document store is a function from ids
to documents (`none` for `doc.exists == False`).  GeoPoint objects are
truthy in Python, so `d.get("lat_long_land") or d.get("lat_long_plot")`
is the left-biased choice of the two optional fields.  In the success
branch `result["zone"]` is total because the no-error shape always carries
`"zone"`. -/
def gdcr_by_doc {G : Type} [GeomEngine G] (db : String → Option FireDoc)
    (zones : ZoneDataset G) (gdcrData : List RegRecord) (doc_id : String) : DocEffect :=
  match db doc_id with
  | none => ⟨[("error", .jstr "Document not found")], none⟩
  | some d =>
    match d.lat_long_land <|> d.lat_long_plot with
    | none => ⟨[("error", .jstr "Lat/Long not found in document")], none⟩
    | some geo =>
      let result := find_gdcr zones gdcrData geo.latitude geo.longitude
      if result.any (fun kv => decide (kv.1 = "error")) then
        ⟨result, none⟩
      else
        ⟨[("status", .jstr "GDCR updated"),
          ("doc_id", .jstr doc_id),
          ("zone", (dictGet result "zone").getD .jnull)],
         some [("zoning_admin", (dictGet result "zone").getD .jnull),
               ("fsi_admin", (dictGet result "base_fsi").getD .jnull),
               ("permissibleheight_admin", (dictGet result "max_height_m").getD .jnull)]⟩

/-! ### Concrete example data

Small concrete datasets over `Rect` geometries, used to instantiate the
theorems below on explicit inputs. -/

/-- A residential zone polygon: the open rectangle `(0,10) × (0,3)` with the
zone name stored (with padding) under the `Zoning` property. -/
def exFeat1 : Feature Rect := ⟨⟨0, 0, 10, 3⟩, [("Zoning", .jstr " R1 ")]⟩

/-- A one-feature dataset whose frame columns are `Zoning` and `geometry`. -/
def exData1 : ZoneDataset Rect := ⟨["Zoning", "geometry"], [exFeat1]⟩

/-- The regulation record for zone `R1`. -/
def exReg1 : RegRecord :=
  [("zoning", .jstr "r1"), ("base_fsi", .jnum 2), ("max_height_m", .jnum 40),
   ("permissible_use", .jstr "Residential")]

/-- A dataset whose only polygon sits far away from the origin. -/
def exData5 : ZoneDataset Rect := ⟨["Zoning", "geometry"], [⟨⟨20, 20, 30, 30⟩, []⟩]⟩

/-- A dataset with no recognisable zone-name column at all. -/
def exData6 : ZoneDataset Rect := ⟨["id", "geometry"], [⟨⟨0, 0, 10, 3⟩, [("id", .jnum 7)]⟩]⟩

/-- A feature whose own property keys contain no zone-name key. -/
def cex6feat : Feature Rect := ⟨⟨0, 0, 10, 3⟩, [("name", .jstr "plotA")]⟩

/-- A mixed dataset: `cex6feat` contains the query point and carries no
zone-name key of its own, while a second, far-away feature supplies the
frame-level `Zoning` column. -/
def cex6data : ZoneDataset Rect :=
  ⟨["Zoning", "geometry"], [cex6feat, ⟨⟨20, 20, 30, 30⟩, [("Zoning", .jstr "R1")]⟩]⟩

/-- A regulation record keyed only under `zone`, with no `zoning` key. -/
def cex9rec : RegRecord := [("zone", .jstr "R1"), ("base_fsi", .jnum 3)]

/-- A feature whose `Zoning` property is pure whitespace, so the extracted
zone name strips to the empty string. -/
def cex9feat : Feature Rect := ⟨⟨0, 0, 10, 3⟩, [("Zoning", .jstr "  ")]⟩

/-- One-feature dataset around `cex9feat`. -/
def cex9data : ZoneDataset Rect := ⟨["Zoning", "geometry"], [cex9feat]⟩

/-- A regulation record carrying its zone name both ways; used as a later
list element that a first match must shadow. -/
def exReg9b : RegRecord := [("zoning", .jstr "r1"), ("base_fsi", .jnum 9)]

/-- A tiny polygon around `(0, 0)`: the open square of half-width `1/100`,
small enough that the `0.05`-degree query window fully contains it. -/
def cex2feat : Feature Rect := ⟨⟨-1/100, -1/100, 1/100, 1/100⟩, [("Zoning", .jstr "R1")]⟩

/-- One-feature dataset around `cex2feat`. -/
def cex2data : ZoneDataset Rect := ⟨["Zoning", "geometry"], [cex2feat]⟩

/-- The document store used in the endpoint examples: a single document
`p1` whose `lat_long_land` geo-field points into `exFeat1`. -/
def exDb : String → Option FireDoc :=
  fun s => if s = "p1" then some ⟨some ⟨1, 5⟩, none⟩ else none

/-- A document store whose only document `p2` has no geo-field. -/
def exDbNoGeo : String → Option FireDoc :=
  fun s => if s = "p2" then some ⟨none, none⟩ else none

/-! ### Helper lemmas -/

/-- Filtering by `p` after a pre-filter by `q` loses nothing when `p`
implies `q` on the list. -/
lemma filter_filter_of_imp {α : Type} (p q : α → Bool) (l : List α)
    (h : ∀ x ∈ l, p x = true → q x = true) :
    (l.filter q).filter p = l.filter p := by
  induction l with
  | nil => rfl
  | cons a l ih =>
    have ih2 := ih (fun x hx hpx => h x (List.mem_cons_of_mem _ hx) hpx)
    cases hq : q a with
    | true => simp [List.filter_cons, hq, ih2]
    | false =>
      have hpa : p a = false := by
        cases hpa : p a
        · rfl
        · exact absurd (h a (List.mem_cons_self _ _) hpa) (by simp [hq])
      simp [List.filter_cons, hq, hpa, ih2]

/-- The first element found by `find?` heads the filtered list. -/
lemma filter_eq_cons_of_find? {α : Type} {p : α → Bool} {l : List α} {a : α}
    (h : List.find? p l = some a) : ∃ t, l.filter p = a :: t := by
  induction l with
  | nil => simp at h
  | cons b l ih =>
    cases hpb : p b
    · rw [List.find?_cons_of_neg _ (by simp [hpb])] at h
      obtain ⟨t, ht⟩ := ih h
      exact ⟨t, by simp [List.filter_cons, hpb, ht]⟩
    · rw [List.find?_cons_of_pos _ hpb] at h
      obtain rfl := Option.some.inj h
      exact ⟨l.filter p, by simp [List.filter_cons, hpb]⟩

/-- The query coordinate itself lies in its own window. -/
lemma containsPt_queryBBox (lat lon : ℚ) : (queryBBox lat lon).containsPt lon lat = true := by
  simp only [queryBBox, BBox.containsPt, buffer_deg, Bool.and_eq_true, decide_eq_true_eq]
  refine ⟨⟨⟨by linarith, by linarith⟩, by linarith⟩, by linarith⟩

/-- Two boxes sharing a point overlap. -/
lemma BBox.intersects_of_containsPt {a b : BBox} {x y : ℚ}
    (ha : a.containsPt x y = true) (hb : b.containsPt x y = true) :
    a.intersects b = true := by
  simp only [BBox.containsPt, Bool.and_eq_true, decide_eq_true_eq] at ha hb
  simp only [BBox.intersects, Bool.and_eq_true, decide_eq_true_eq]
  obtain ⟨⟨⟨ha1, ha2⟩, ha3⟩, ha4⟩ := ha
  obtain ⟨⟨⟨hb1, hb2⟩, hb3⟩, hb4⟩ := hb
  exact ⟨⟨⟨le_trans ha1 hb2, le_trans hb1 ha2⟩, le_trans ha3 hb4⟩, le_trans hb3 ha4⟩

/-- Every rectangle geometry satisfies the engine invariant. -/
lemma rect_wf (r : Rect) : GeomEngine.WF r := by
  intro x y h
  simp only [GeomEngine.containsPt, rectEngine, Bool.and_eq_true, decide_eq_true_eq] at h
  simp only [GeomEngine.bounds, rectEngine, BBox.containsPt, Bool.and_eq_true, decide_eq_true_eq]
  obtain ⟨⟨⟨h1, h2⟩, h3⟩, h4⟩ := h
  exact ⟨⟨⟨le_of_lt h1, le_of_lt h2⟩, le_of_lt h3⟩, le_of_lt h4⟩

/-- Under the engine invariant, the bbox pre-filter drops no feature that
contains the query point, so the containment matches of the windowed frame
are exactly the containment matches of the whole dataset. -/
lemma matchFeats_eq_filter {G : Type} [GeomEngine G] (d : ZoneDataset G) (lat lon : ℚ)
    (hwf : ∀ g ∈ d.feats, GeomEngine.WF g.geom) :
    matchFeats d lat lon = d.feats.filter (fun g => GeomEngine.containsPt g.geom lon lat) := by
  have h := filter_filter_of_imp (fun g : Feature G => GeomEngine.containsPt g.geom lon lat)
      (fun g : Feature G => (GeomEngine.bounds g.geom).intersects (queryBBox lat lon)) d.feats
      (fun g hg hc => BBox.intersects_of_containsPt (hwf g hg lon lat hc)
        (containsPt_queryBBox lat lon))
  simpa [matchFeats, load_zones_near_point, queryPoint] using h

/-- The windowed frame keeps the file-level column list. -/
lemma columns_load_zones {G : Type} [GeomEngine G] (d : ZoneDataset G) (lat lon : ℚ) :
    (load_zones_near_point d lat lon).columns = d.columns := rfl

/-! ### Claim theorems -/

/-- C7: for every query coordinate, the windowed loader computes the
axis-aligned box `[lon − 0.05, lon + 0.05] × [lat − 0.05, lat + 0.05]`
(half-width `0.05` degrees centred on the coordinate) and keeps exactly the
features whose envelope intersects that box. -/
theorem load_zones_bbox_spec {G : Type} [GeomEngine G] (d : ZoneDataset G) (lat lon : ℚ)
    (f : Feature G) :
    queryBBox lat lon = ⟨lon - 5/100, lat - 5/100, lon + 5/100, lat + 5/100⟩ ∧
    (f ∈ (load_zones_near_point d lat lon).feats ↔
      f ∈ d.feats ∧ (GeomEngine.bounds f.geom).intersects (queryBBox lat lon) = true) := by
  refine ⟨rfl, ?_⟩
  simp [load_zones_near_point, List.mem_filter]

/-- C3: the resolver builds the query point with longitude as the x
coordinate and latitude as the y coordinate, and the containment matches
are exactly the windowed features containing that `(lon, lat)` point. -/
theorem query_point_is_lon_lat {G : Type} [GeomEngine G] (d : ZoneDataset G) (lat lon : ℚ)
    (f : Feature G) :
    (queryPoint lat lon).x = lon ∧ (queryPoint lat lon).y = lat ∧
    (f ∈ matchFeats d lat lon ↔
      f ∈ (load_zones_near_point d lat lon).feats ∧
        GeomEngine.containsPt f.geom lon lat = true) := by
  refine ⟨rfl, rfl, ?_⟩
  simp [matchFeats, queryPoint, List.mem_filter]

/-- C5: a coordinate contained in no candidate polygon yields the dict
`{"error": "Point outside GDCR zones"}`, with no zone field and no
regulation fields. -/
theorem find_gdcr_point_outside {G : Type} [GeomEngine G] (d : ZoneDataset G)
    (tbl : List RegRecord) (lat lon : ℚ)
    (h : ∀ f ∈ (load_zones_near_point d lat lon).feats,
      GeomEngine.containsPt f.geom lon lat = false) :
    find_gdcr d tbl lat lon = [("error", .jstr "Point outside GDCR zones")] ∧
    dictGet (find_gdcr d tbl lat lon) "zone" = none ∧
    dictGet (find_gdcr d tbl lat lon) "base_fsi" = none ∧
    dictGet (find_gdcr d tbl lat lon) "max_height_m" = none ∧
    dictGet (find_gdcr d tbl lat lon) "permissible_use" = none := by
  have hm : matchFeats d lat lon = [] := by
    refine List.filter_eq_nil_iff.mpr ?_
    intro f hf
    simp only [queryPoint]
    simp [h f hf]
  have hmain : find_gdcr d tbl lat lon = [("error", .jstr "Point outside GDCR zones")] := by
    simp only [find_gdcr, hm]
  exact ⟨hmain, by rw [hmain]; rfl, by rw [hmain]; rfl, by rw [hmain]; rfl, by rw [hmain]; rfl⟩

/-- C5 witness: the origin lies in no polygon of `exData5`, and `find_gdcr`
returns the outside-zones error dict. -/
theorem find_gdcr_point_outside_witness :
    find_gdcr exData5 [] 0 0 = [("error", JVal.jstr "Point outside GDCR zones")] := by
  have h : ∀ f ∈ (load_zones_near_point exData5 0 0).feats,
      GeomEngine.containsPt f.geom 0 0 = false := by
    intro f hf
    have hm : f ∈ exData5.feats := (List.mem_filter.mp hf).1
    simp only [exData5, List.mem_singleton] at hm
    subst hm
    decide
  exact (find_gdcr_point_outside exData5 [] 0 0 h).1

/-- C6 (amended): when the query point lies in some candidate feature but
none of the frame's columns matches a zone-name key, the resolver returns
the dict `{"error": "Zoning column not found"}` with no zone field.  (The
scan is over the frame-level column list, not the containing feature's own
property keys — see the counterexample.) -/
theorem find_gdcr_zone_column_missing {G : Type} [GeomEngine G] (d : ZoneDataset G)
    (tbl : List RegRecord) (lat lon : ℚ)
    (hne : matchFeats d lat lon ≠ [])
    (hcol : List.find? isZoneKeyName d.columns = none) :
    find_gdcr d tbl lat lon = [("error", .jstr "Zoning column not found")] ∧
    dictGet (find_gdcr d tbl lat lon) "zone" = none := by
  obtain ⟨f, t, hft⟩ := List.exists_cons_of_ne_nil hne
  have hcols : List.find? isZoneKeyName (load_zones_near_point d lat lon).columns = none := by
    rw [columns_load_zones]; exact hcol
  have hmain : find_gdcr d tbl lat lon = [("error", .jstr "Zoning column not found")] := by
    simp only [find_gdcr, hft, hcols]
  exact ⟨hmain, by rw [hmain]; rfl⟩

/-- C6 witness: a dataset with no zone-name column produces the
column-missing error at a point inside its polygon. -/
theorem find_gdcr_zone_column_missing_witness :
    find_gdcr exData6 [] 1 5 = [("error", JVal.jstr "Zoning column not found")] := by
  have hmf : matchFeats exData6 1 5 =
      exData6.feats.filter (fun g => GeomEngine.containsPt g.geom 5 1) :=
    matchFeats_eq_filter exData6 1 5 (fun g _ => rect_wf g.geom)
  have hne : matchFeats exData6 1 5 ≠ [] := by
    rw [hmf]
    exact (by simp : ¬([⟨⟨0, 0, 10, 3⟩, [("id", JVal.jnum 7)]⟩] : List (Feature Rect)) = [])
  exact (find_gdcr_zone_column_missing exData6 [] 1 5 hne (by decide)).1

/-- C6 counterexample: the claim as stated is false — `cex6feat` contains
the query point and its own property keys include no zone-name key, yet the
resolver does not return the column-missing error, because the scan runs
over the frame's columns, where another feature supplies `Zoning`.  The
containing feature's missing value then resolves to the stringified `None`
zone name. -/
theorem zone_column_scan_is_framewide :
    (∀ k ∈ cex6feat.props.map Prod.fst, isZoneKeyName k = false) ∧
    GeomEngine.containsPt cex6feat.geom 5 1 = true ∧
    find_gdcr cex6data [] 1 5 =
      [("zone", JVal.jstr "None"), ("error", JVal.jstr "GDCR data not found")] ∧
    find_gdcr cex6data [] 1 5 ≠ [("error", JVal.jstr "Zoning column not found")] := by
  have hmf : matchFeats cex6data 1 5 = [cex6feat] := by
    rw [matchFeats_eq_filter cex6data 1 5 (fun g _ => rect_wf g.geom)]
    rfl
  have hmain : find_gdcr cex6data [] 1 5 =
      [("zone", JVal.jstr "None"), ("error", JVal.jstr "GDCR data not found")] := by
    simp only [find_gdcr, hmf]
    rfl
  refine ⟨by decide, by decide, hmain, ?_⟩
  rw [hmain]
  simp

/-- C4: when the first containing feature's extracted zone name has no
regulation entry, the resolver returns the partial-success dict
`{"zone": z, "error": "GDCR data not found"}`: zone present, error present,
regulation fields absent. -/
theorem find_gdcr_regulation_missing_partial {G : Type} [GeomEngine G] (d : ZoneDataset G)
    (tbl : List RegRecord) (lat lon : ℚ) (f : Feature G) (col : String)
    (hwf : ∀ g ∈ d.feats, GeomEngine.WF g.geom)
    (hfirst : List.find? (fun g => GeomEngine.containsPt g.geom lon lat) d.feats = some f)
    (hcol : List.find? isZoneKeyName d.columns = some col)
    (hnoreg : findReg tbl (extractZone f col) = none) :
    find_gdcr d tbl lat lon =
      [("zone", .jstr (extractZone f col)), ("error", .jstr "GDCR data not found")] ∧
    dictGet (find_gdcr d tbl lat lon) "zone" = some (.jstr (extractZone f col)) ∧
    dictGet (find_gdcr d tbl lat lon) "error" = some (.jstr "GDCR data not found") ∧
    dictGet (find_gdcr d tbl lat lon) "base_fsi" = none ∧
    dictGet (find_gdcr d tbl lat lon) "max_height_m" = none ∧
    dictGet (find_gdcr d tbl lat lon) "permissible_use" = none := by
  obtain ⟨t, hft⟩ := filter_eq_cons_of_find? hfirst
  have hmf : matchFeats d lat lon = f :: t :=
    (matchFeats_eq_filter d lat lon hwf).trans hft
  have hcols : List.find? isZoneKeyName (load_zones_near_point d lat lon).columns = some col := by
    rw [columns_load_zones]; exact hcol
  have hmain : find_gdcr d tbl lat lon =
      [("zone", .jstr (extractZone f col)), ("error", .jstr "GDCR data not found")] := by
    simp only [find_gdcr, hmf, hcols, hnoreg]
  exact ⟨hmain, by rw [hmain]; rfl, by rw [hmain]; rfl, by rw [hmain]; rfl,
    by rw [hmain]; rfl, by rw [hmain]; rfl⟩

/-- C4 witness: with an empty regulation table, the zone `R1` resolves
geometrically but yields the partial-success dict. -/
theorem find_gdcr_regulation_missing_partial_witness :
    find_gdcr exData1 [] 1 5 =
      [("zone", JVal.jstr "R1"), ("error", JVal.jstr "GDCR data not found")] ∧
    dictGet (find_gdcr exData1 [] 1 5) "base_fsi" = none :=
  have h := find_gdcr_regulation_missing_partial exData1 [] 1 5 exFeat1 "Zoning"
    (fun g _ => rect_wf g.geom) rfl (by decide) rfl
  ⟨h.1, h.2.2.2.1⟩

/-- C1: for a coordinate strictly inside exactly one polygon feature whose
extracted zone name has a regulation entry, `find_gdcr` returns exactly the
dict `{"zone", "base_fsi", "max_height_m", "permissible_use"}` with the
three regulation values taken from that record, and no error field. -/
theorem find_gdcr_unique_containment_returns_regulation {G : Type} [GeomEngine G]
    (d : ZoneDataset G) (tbl : List RegRecord) (lat lon : ℚ) (f : Feature G) (col : String)
    (row : RegRecord)
    (hwf : ∀ g ∈ d.feats, GeomEngine.WF g.geom)
    (hone : d.feats.filter (fun g => GeomEngine.containsPt g.geom lon lat) = [f])
    (hcol : List.find? isZoneKeyName d.columns = some col)
    (hreg : findReg tbl (extractZone f col) = some row) :
    find_gdcr d tbl lat lon =
      [("zone", .jstr (extractZone f col)),
       ("base_fsi", (dictGet row "base_fsi").getD .jnull),
       ("max_height_m", (dictGet row "max_height_m").getD .jnull),
       ("permissible_use", (dictGet row "permissible_use").getD .jnull)] ∧
    dictGet (find_gdcr d tbl lat lon) "error" = none := by
  have hmf : matchFeats d lat lon = [f] :=
    (matchFeats_eq_filter d lat lon hwf).trans hone
  have hcols : List.find? isZoneKeyName (load_zones_near_point d lat lon).columns = some col := by
    rw [columns_load_zones]; exact hcol
  have hmain : find_gdcr d tbl lat lon =
      [("zone", .jstr (extractZone f col)),
       ("base_fsi", (dictGet row "base_fsi").getD .jnull),
       ("max_height_m", (dictGet row "max_height_m").getD .jnull),
       ("permissible_use", (dictGet row "permissible_use").getD .jnull)] := by
    simp only [find_gdcr, hmf, hcols, hreg]
  exact ⟨hmain, by rw [hmain]; rfl⟩

/-- C1 witness: the point `(lat 1, lon 5)` inside the single `R1` polygon
returns the `R1` regulation record's fields verbatim, with no error key. -/
theorem find_gdcr_unique_containment_returns_regulation_witness :
    find_gdcr exData1 [exReg1] 1 5 =
      [("zone", JVal.jstr "R1"), ("base_fsi", JVal.jnum 2), ("max_height_m", JVal.jnum 40),
       ("permissible_use", JVal.jstr "Residential")] ∧
    dictGet (find_gdcr exData1 [exReg1] 1 5) "error" = none :=
  find_gdcr_unique_containment_returns_regulation exData1 [exReg1] 1 5 exFeat1 "Zoning" exReg1
    (fun g _ => rect_wf g.geom) rfl (by decide) rfl

/-- C9 (amended): the regulation scan matches a record iff the record's
value under the key `"zoning"` — defaulting to the empty string when that
key is absent — stringified, trimmed and case-folded, equals the
case-folded zone name; a record storing its name only under `"zone"` or
`"zone_name"` is never matched provided the resolved zone name is nonempty
after folding (the counterexample shows the empty zone name does match such
records through the empty default); and the first matching record in list
order is the one returned. -/
theorem findReg_matches_only_zoning_key (tbl : List RegRecord) (z : String) (r : RegRecord)
    (hz : pyLower z ≠ "") :
    (∀ row : RegRecord, regMatches row z = true ↔
        pyLower (pyStrip (pyStr ((dictGet row "zoning").getD (.jstr "")))) = pyLower z) ∧
    (∀ row : RegRecord, dictGet row "zoning" = none → regMatches row z = false) ∧
    (findReg tbl z = some r → r ∈ tbl ∧ regMatches r z = true) ∧
    (∀ pre post, tbl = pre ++ r :: post → regMatches r z = true →
        (∀ q ∈ pre, regMatches q z = false) → findReg tbl z = some r) := by
  refine ⟨?_, ?_, ?_, ?_⟩
  · intro row
    simp [regMatches]
  · intro row h
    have he : pyLower (pyStrip (pyStr ((dictGet row "zoning").getD (.jstr "")))) = "" := by
      rw [h]; rfl
    simp only [regMatches, he]
    exact decide_eq_false (fun hc => hz hc.symm)
  · intro h
    have h2 : List.find? (fun row => regMatches row z) tbl = some r := h
    exact ⟨List.mem_of_find?_eq_some h2, @List.find?_some _ (fun row => regMatches row z) r tbl h2⟩
  · intro pre post htbl hr hpre
    subst htbl
    unfold findReg
    rw [List.find?_append]
    have hnone : List.find? (fun row => regMatches row z) pre = none :=
      List.find?_eq_none.mpr (fun q hq => by simp [hpre q hq])
    rw [hnone]
    simp [List.find?_cons_of_pos, hr]

/-- C9 witness: a padded `zoning`-keyed record is matched first, ahead of a
later record with the same key, and a record lacking the `zoning` key never
matches the nonempty zone name `R1`. -/
theorem findReg_matches_only_zoning_key_witness :
    findReg [exReg1, exReg9b] "R1" = some exReg1 ∧ regMatches cex9rec "R1" = false :=
  have h := findReg_matches_only_zoning_key [exReg1, exReg9b] "R1" exReg1 (by decide)
  ⟨h.2.2.2 [] [exReg9b] rfl (by decide) (by simp), h.2.1 cex9rec rfl⟩

/-- C9 counterexample: the claim's "never matched" clause fails for the
empty resolved zone name.  `cex9feat`'s `Zoning` property is whitespace, so
the extracted zone name strips to `""`; the record `cex9rec`, which stores
its zone name only under `"zone"`, is nevertheless matched — its `zoning`
default `""` equals the empty name — and its fields are returned. -/
theorem findReg_empty_name_matches_zoneless_record :
    dictGet cex9rec "zoning" = none ∧
    find_gdcr cex9data [cex9rec] 1 5 =
      [("zone", JVal.jstr ""), ("base_fsi", JVal.jnum 3),
       ("max_height_m", JVal.jnull), ("permissible_use", JVal.jnull)] := by
  have hmf : matchFeats cex9data 1 5 = [cex9feat] := by
    rw [matchFeats_eq_filter cex9data 1 5 (fun g _ => rect_wf g.geom)]
    rfl
  refine ⟨rfl, ?_⟩
  simp only [find_gdcr, hmf]
  rfl

/-- C2 (amended): when the dataset's first zone-name column is exactly
`"Zoning"`, the windowed resolver and the original full-load resolver pick
the same first containing feature and agree on the resolved zone name (and
the original echoes the query coordinate); the full payload shapes differ —
see the counterexample. -/
theorem windowed_and_fullload_agree_on_zone {G : Type} [GeomEngine G] (d : ZoneDataset G)
    (tbl : List RegRecord) (lat lon : ℚ) (f : Feature G)
    (hwf : ∀ g ∈ d.feats, GeomEngine.WF g.geom)
    (hfirst : List.find? (fun g => GeomEngine.containsPt g.geom lon lat) d.feats = some f)
    (hcol : List.find? isZoneKeyName d.columns = some "Zoning") :
    dictGet (find_gdcr d tbl lat lon) "zone" = some (.jstr (extractZone f "Zoning")) ∧
    ∃ res, get_gdcr d.feats (build_gdcr_dict tbl) lat lon = some res ∧
      res.zone = extractZone f "Zoning" ∧ res.latitude = lat ∧ res.longitude = lon := by
  obtain ⟨t, hft⟩ := filter_eq_cons_of_find? hfirst
  have hmf : matchFeats d lat lon = f :: t := (matchFeats_eq_filter d lat lon hwf).trans hft
  have hcols : List.find? isZoneKeyName (load_zones_near_point d lat lon).columns =
      some "Zoning" := by
    rw [columns_load_zones]; exact hcol
  constructor
  · cases hfr : findReg tbl (extractZone f "Zoning") with
    | none => simp only [find_gdcr, hmf, hcols, hfr]; rfl
    | some row => simp only [find_gdcr, hmf, hcols, hfr]; rfl
  · have hg : get_gdcr d.feats (build_gdcr_dict tbl) lat lon =
        some ⟨lat, lon, extractZone f "Zoning",
          ((build_gdcr_dict tbl).find?
            (fun kv => decide (kv.1 = pyLower (extractZone f "Zoning")))).map
            (fun kv => kv.2)⟩ := by
      simp only [get_gdcr, queryPoint]
      rw [hfirst]
    exact ⟨_, hg, rfl, rfl, rfl⟩

/-- C2 witness: on `exData1` both strategies resolve zone `R1` at
`(lat 1, lon 5)`. -/
theorem windowed_and_fullload_agree_on_zone_witness :
    dictGet (find_gdcr exData1 [exReg1] 1 5) "zone" = some (JVal.jstr "R1") ∧
    ∃ res, get_gdcr exData1.feats (build_gdcr_dict [exReg1]) 1 5 = some res ∧
      res.zone = "R1" ∧ res.latitude = 1 ∧ res.longitude = 5 :=
  windowed_and_fullload_agree_on_zone exData1 [exReg1] 1 5 exFeat1
    (fun g _ => rect_wf g.geom) rfl (by decide)

/-- C2 counterexample: the claim as stated — identical lookup results —
fails even when the query window fully contains the true polygon: at
`(0, 0)` the windowed endpoint returns the four regulation fields while the
original full-load endpoint returns latitude, longitude, zone and the
nested regulation record. -/
theorem windowed_fullload_payloads_differ :
    (queryBBox 0 0).containsBox (GeomEngine.bounds cex2feat.geom) = true ∧
    origResultDict (get_gdcr cex2data.feats (build_gdcr_dict [exReg1]) 0 0) ≠
      find_gdcr cex2data [exReg1] 0 0 := by
  have hc : GeomEngine.containsPt cex2feat.geom 0 0 = true := by
    simp only [cex2feat, GeomEngine.containsPt, rectEngine]
    norm_num
  have hfilter : cex2data.feats.filter (fun g => GeomEngine.containsPt g.geom 0 0) =
      [cex2feat] := by
    simp [cex2data, List.filter_cons, hc]
  have hmf : matchFeats cex2data 0 0 = [cex2feat] :=
    (matchFeats_eq_filter cex2data 0 0 (fun g _ => rect_wf g.geom)).trans hfilter
  have hfg : find_gdcr cex2data [exReg1] 0 0 =
      [("zone", JVal.jstr "R1"), ("base_fsi", JVal.jnum 2), ("max_height_m", JVal.jnum 40),
       ("permissible_use", JVal.jstr "Residential")] := by
    simp only [find_gdcr, hmf]
    rfl
  have hfind : List.find?
      (fun row => GeomEngine.containsPt row.geom (queryPoint 0 0).x (queryPoint 0 0).y)
      cex2data.feats = some cex2feat := by
    simp only [queryPoint]
    simp [cex2data, List.find?_cons_of_pos, hc]
  have hg : get_gdcr cex2data.feats (build_gdcr_dict [exReg1]) 0 0 =
      some ⟨0, 0, "R1", some exReg1⟩ := by
    simp only [get_gdcr]
    rw [hfind]
    rfl
  constructor
  · simp only [queryBBox, buffer_deg, BBox.containsBox, GeomEngine.bounds, rectEngine, cex2feat]
    norm_num
  · rw [hg, hfg]
    simp [origResultDict]

/-- C8: a `/gdcr-by-doc` request whose document is absent, or whose
document carries neither `lat_long_land` nor `lat_long_plot`, returns a
structured error payload, writes nothing to the document, and performs no
zone resolution: the outcome is independent of the zone dataset and the
regulation table. -/
theorem gdcr_by_doc_missing_doc_or_geo {G : Type} [GeomEngine G] (db : String → Option FireDoc)
    (d d2 : ZoneDataset G) (tbl tbl2 : List RegRecord) (doc_id : String)
    (h : db doc_id = none ∨
      ∃ doc, db doc_id = some doc ∧ doc.lat_long_land = none ∧ doc.lat_long_plot = none) :
    ((gdcr_by_doc db d tbl doc_id).response = [("error", .jstr "Document not found")] ∨
      (gdcr_by_doc db d tbl doc_id).response =
        [("error", .jstr "Lat/Long not found in document")]) ∧
    (gdcr_by_doc db d tbl doc_id).update = none ∧
    gdcr_by_doc db d tbl doc_id = gdcr_by_doc db d2 tbl2 doc_id := by
  rcases h with h | ⟨doc, hdoc, h1, h2⟩
  · refine ⟨Or.inl ?_, ?_, ?_⟩ <;> simp [gdcr_by_doc, h]
  · refine ⟨Or.inr ?_, ?_, ?_⟩ <;> simp [gdcr_by_doc, hdoc, h1, h2]

/-- C8 witness: document `p2` exists but has no geo-field; the endpoint
reports the structured error, updates nothing, and behaves identically for
two different datasets and regulation tables. -/
theorem gdcr_by_doc_missing_doc_or_geo_witness :
    ((gdcr_by_doc exDbNoGeo exData1 [] "p2").response =
        [("error", JVal.jstr "Document not found")] ∨
      (gdcr_by_doc exDbNoGeo exData1 [] "p2").response =
        [("error", JVal.jstr "Lat/Long not found in document")]) ∧
    (gdcr_by_doc exDbNoGeo exData1 [] "p2").update = none ∧
    gdcr_by_doc exDbNoGeo exData1 [] "p2" = gdcr_by_doc exDbNoGeo exData5 [exReg1] "p2" :=
  gdcr_by_doc_missing_doc_or_geo exDbNoGeo exData1 exData5 [] [exReg1] "p2"
    (Or.inr ⟨⟨none, none⟩, rfl, rfl, rfl⟩)

/-- C10: when the document exists and carries a geo-field, a resolver
result containing an `"error"` key — including the partial-success result
that carries a zone — is returned unchanged with no document update, and
the three admin fields are written exactly when the result has no error
key. -/
theorem gdcr_by_doc_error_passthrough {G : Type} [GeomEngine G] (db : String → Option FireDoc)
    (d : ZoneDataset G) (tbl : List RegRecord) (doc_id : String) (doc : FireDoc) (geo : GeoPt)
    (hdoc : db doc_id = some doc)
    (hgeo : (doc.lat_long_land <|> doc.lat_long_plot) = some geo) :
    ((find_gdcr d tbl geo.latitude geo.longitude).any (fun kv => decide (kv.1 = "error")) = true →
      gdcr_by_doc db d tbl doc_id = ⟨find_gdcr d tbl geo.latitude geo.longitude, none⟩) ∧
    ((find_gdcr d tbl geo.latitude geo.longitude).any (fun kv => decide (kv.1 = "error")) = false →
      gdcr_by_doc db d tbl doc_id =
        ⟨[("status", .jstr "GDCR updated"), ("doc_id", .jstr doc_id),
          ("zone", (dictGet (find_gdcr d tbl geo.latitude geo.longitude) "zone").getD .jnull)],
         some [("zoning_admin",
                 (dictGet (find_gdcr d tbl geo.latitude geo.longitude) "zone").getD .jnull),
               ("fsi_admin",
                 (dictGet (find_gdcr d tbl geo.latitude geo.longitude) "base_fsi").getD .jnull),
               ("permissibleheight_admin",
                 (dictGet (find_gdcr d tbl geo.latitude geo.longitude) "max_height_m").getD
                   .jnull)]⟩) := by
  constructor <;> intro h <;> simp [gdcr_by_doc, hdoc, hgeo, h]

/-- C10 witness: document `p1` resolves to the partial-success result
(zone present, error present); the endpoint returns it unchanged and
performs no update. -/
theorem gdcr_by_doc_error_passthrough_witness :
    gdcr_by_doc exDb exData1 [] "p1" =
      ⟨[("zone", JVal.jstr "R1"), ("error", JVal.jstr "GDCR data not found")], none⟩ := by
  have hmf : matchFeats exData1 1 5 = [exFeat1] := by
    rw [matchFeats_eq_filter exData1 1 5 (fun g _ => rect_wf g.geom)]
    rfl
  have hfg : find_gdcr exData1 [] 1 5 =
      [("zone", JVal.jstr "R1"), ("error", JVal.jstr "GDCR data not found")] := by
    simp only [find_gdcr, hmf]
    rfl
  have hany : (find_gdcr exData1 [] (1:ℚ) 5).any (fun kv => decide (kv.1 = "error")) = true := by
    rw [hfg]
    rfl
  have h := (gdcr_by_doc_error_passthrough exDb exData1 [] "p1" ⟨some ⟨1, 5⟩, none⟩ ⟨1, 5⟩
    rfl rfl).1 hany
  simpa [hfg] using h

end GDCRApi
